import Mathlib

/-!
Verification of the temperature-analysis application (`src/app.py`).

The embedding below translates the core functions of `app.py` into Lean:

* `process_city_data` — the rolling anomaly detector (pandas
  `rolling(window=30).mean() / .std()`, bounds `mean ± 2·std`, boolean
  `anomaly` column).  Temperatures are modelled as exact rationals.  The
  `rolling_std` column is carried as its square, the sample variance
  (`rolling_var`), so that every definition stays computable; theorems about
  the standard deviation and the `upper_bound`/`lower_bound` columns are
  stated over `ℝ` with `Real.sqrt`, and the boolean anomaly test is proved
  equivalent to the source's `t > mean + 2*std ∨ t < mean - 2*std`.
  The Python function assigns the five new columns *in place* on the frame it
  receives; this mutation is modelled by explicit state passing: a
  `DataFrame` carries its optional annotation columns and
  `process_city_data` returns the updated state of its argument.
* `analyze_without_parallelism` / `analyze_with_parallelism` — group the
  multi-city frame by city and run the detector per partition, sequentially
  or on a thread pool (`ThreadPoolExecutor.map`).  The pool is modelled by an
  explicit schedule: tasks are executed in an arbitrary index order and each
  result is written into the slot of its task, which is exactly the
  order-restoring behaviour of `executor.map`.
* `seasonal_statistics` — pandas `groupby(['city','season'])['temperature']
  .agg(['mean','std'])`; the `std` column is again carried as the sample
  variance, `none` when the group has fewer than two rows (pandas NaN).
* `fetch_temperature_sync` / `fetch_temperature_async` and the two monitors —
  the network is an oracle `String → NetOutcome`: a request either completes
  with an HTTP status and a JSON body carrying the current temperature, or
  raises a transport exception.  Neither Python fetcher catches exceptions,
  so a raised transport error is modelled by `Except.error`, which the
  monitors propagate (`asyncio.gather` with the default
  `return_exceptions=False`, and a plain list comprehension).
-/

namespace WeatherApp

/-- One record of the historical table: columns `timestamp, city, season,
temperature`. -/
structure Row where
  timestamp : Int
  city : String
  season : String
  temperature : ℚ
deriving DecidableEq, Repr, Inhabited

/-- The five columns `process_city_data` adds, per record.  `rolling_std`,
`upper_bound` and `lower_bound` are determined by `rolling_mean` and
`rolling_var` (std is `√rolling_var`, the bounds are `mean ± 2·√var`), so only
the mean, the variance and the boolean `anomaly` column are stored; `none`
models pandas NaN. -/
structure Ann where
  rolling_mean : Option ℚ
  rolling_var : Option ℚ
  anomaly : Bool
deriving DecidableEq, Repr, Inhabited

/-- A pandas DataFrame of the historical table: the base rows plus, once
`process_city_data` has run on it, the annotation columns (`none` while the
columns are absent). -/
structure DataFrame where
  rows : List Row
  ann : Option (List Ann)
deriving DecidableEq, Repr, Inhabited

/-- Arithmetic mean, as computed by pandas `mean()`. -/
def listMean (xs : List ℚ) : ℚ := xs.sum / (xs.length : ℚ)

/-- Sample variance (`ddof=1`, divisor `n-1`), the square of pandas `std()`. -/
def sampleVar (xs : List ℚ) : ℚ :=
  (xs.map (fun x => (x - listMean xs) ^ 2)).sum / ((xs.length : ℚ) - 1)

/-- The trailing window of 30 records ending at index `i`, i.e. records
`[i-29, i]` of the series (meaningful when `29 ≤ i < temps.length`). -/
def windowAt (temps : List ℚ) (i : Nat) : List ℚ :=
  (temps.take (i + 1)).drop (i - 29)

/-- The `rolling_mean` column: pandas `rolling(window=30).mean()` is NaN until
the window holds 30 observations, i.e. for indices `i < 29`. -/
def rolling_mean (temps : List ℚ) (i : Nat) : Option ℚ :=
  if 29 ≤ i then some (listMean (windowAt temps i)) else none

/-- The square of the `rolling_std` column: pandas `rolling(window=30).std()`
(sample std) is NaN for `i < 29`; its square is the sample variance of the
window. -/
def rolling_var (temps : List ℚ) (i : Nat) : Option ℚ :=
  if 29 ≤ i then some (sampleVar (windowAt temps i)) else none

/-- The `anomaly` column of one record:
`(t > upper_bound) | (t < lower_bound)` with `upper/lower = mean ± 2·std`.
Since `std = √var` is irrational, the strict comparisons are decided in `ℚ`
by comparing squares (`t > m + 2·√v ↔ t > m ∧ (t-m)² > 4v` for `v ≥ 0`;
`anomalyFlag_iff_sqrt` below proves the equivalence).  A pandas comparison
against NaN is `False`, hence the flag is `false` when the stats are `none`. -/
def anomalyFlag (t : ℚ) : Option ℚ → Option ℚ → Bool
  | some m, some v =>
      (decide (m < t) && decide (4 * v < (t - m) ^ 2)) ||
      (decide (t < m) && decide (4 * v < (m - t) ^ 2))
  | _, _ => false

/-- The annotation columns computed from the temperature column of one
city's frame. -/
def annCols (temps : List ℚ) : List Ann :=
  (List.range temps.length).map fun i =>
    { rolling_mean := rolling_mean temps i
      rolling_var := rolling_var temps i
      anomaly := anomalyFlag (temps.getD i 0) (rolling_mean temps i) (rolling_var temps i) }

/-- Embeds `process_city_data`: assigns the rolling columns on the frame it
received (in place, hence the returned frame is the new state of the caller's
frame) and returns it. -/
def process_city_data (df : DataFrame) : DataFrame :=
  { rows := df.rows, ann := some (annCols (df.rows.map (·.temperature))) }

/-- The distinct cities of the table, the group keys of `groupby('city')`. -/
def cityKeys (rows : List Row) : List String := (rows.map (·.city)).dedup

/-- Embeds `[group for _, group in data.groupby('city')]`: one fresh frame per
distinct city holding that city's rows in their original order. -/
def groupby_city (rows : List Row) : List DataFrame :=
  (cityKeys rows).map fun c =>
    { rows := rows.filter (fun r => decide (r.city = c)), ann := none }

/-- Embeds `pd.concat`: concatenates rows; the annotation columns are present
on the result when every piece carries them (in the analyzers every piece
does). -/
def concatDF (dfs : List DataFrame) : DataFrame :=
  { rows := (dfs.map (·.rows)).flatten
    ann :=
      if dfs.all (fun d => d.ann.isSome) then
        some ((dfs.map (fun d => d.ann.getD [])).flatten)
      else none }

/-- Embeds `analyze_without_parallelism`: processes the city partitions one at
a time and concatenates. -/
def analyze_without_parallelism (rows : List Row) : DataFrame :=
  concatDF ((groupby_city rows).map process_city_data)

/-- One scheduler step: task `i` (when it exists) runs and its result is
written into slot `i`. -/
def schedStep {α β : Type} (f : α → β) (tasks : List α)
    (slots : List (Option β)) (i : Nat) : List (Option β) :=
  match tasks[i]? with
  | some t => slots.set i (some (f t))
  | none => slots

/-- Executes the tasks of a pool in the given index order (`order` is the
scheduler's choice); each finished task's result is stored in the slot of its
index, which is how `ThreadPoolExecutor.map` (and `asyncio.gather`) hand
results back in submission order whatever the completion order. -/
def runSched {α β : Type} (f : α → β) (tasks : List α) (order : List Nat) :
    List (Option β) :=
  order.foldl (schedStep f tasks) (List.replicate tasks.length (none : Option β))

/-- Embeds `analyze_with_parallelism`: submits one `process_city_data` task
per city partition to the pool, which executes them in an arbitrary order
`order`, then concatenates the results in submission order. -/
def analyze_with_parallelism (rows : List Row) (order : List Nat) : DataFrame :=
  concatDF ((runSched process_city_data (groupby_city rows) order).map
    (fun o => o.getD default))

/-- A seasonal statistics row: pandas
`groupby(['city','season'])['temperature'].agg(['mean','std'])`, the `std`
column again carried as the sample variance (`none` models the NaN pandas
yields for a group with fewer than two rows). -/
structure SeasonalStat where
  city : String
  season : String
  mean : ℚ
  var : Option ℚ
deriving DecidableEq, Repr, Inhabited

/-- The distinct `(city, season)` keys present in the table. -/
def seasonKeys (rows : List Row) : List (String × String) :=
  (rows.map fun r => (r.city, r.season)).dedup

/-- The temperature column of one `(city, season)` group. -/
def groupTemps (rows : List Row) (p : String × String) : List ℚ :=
  (rows.filter fun r => decide (r.city = p.1 ∧ r.season = p.2)).map (·.temperature)

/-- Embeds `seasonal_statistics`: one row per distinct `(city, season)` pair,
with the group's sample mean and (squared) sample std. -/
def seasonal_statistics (rows : List Row) : List SeasonalStat :=
  (seasonKeys rows).map fun p =>
    let ts := groupTemps rows p
    { city := p.1
      season := p.2
      mean := listMean ts
      var := if 2 ≤ ts.length then some (sampleVar ts) else none }

/-- Outcome of one outbound HTTP request, the opaque remote capability: either
a response with a status code and a JSON body carrying the numeric current
temperature (spec §6), or a transport error raised as an exception. -/
inductive NetOutcome where
  | response (status : Nat) (temperature : ℚ)
  | exn (message : String)
deriving DecidableEq, Repr

/-- What a fetcher hands back per city: the parsed JSON body (carrying the
temperature) on HTTP 200, or the `{'error': ...}` dictionary otherwise. -/
inductive FetchResult where
  | json (temperature : ℚ)
  | error (message : String)
deriving DecidableEq, Repr

/-- The error string built by both fetchers for a non-200 status. -/
def errorText (city : String) (status : Nat) : String :=
  "Error fetching data for " ++ city ++ ": " ++ toString status

/-- Embeds `fetch_temperature_sync`: `requests.get`, then the JSON body on
status 200 and the error dictionary on any other status.  A transport error
raised by `requests.get` is not caught and propagates (`Except.error`). -/
def fetch_temperature_sync (net : String → NetOutcome) (city : String) :
    Except String FetchResult :=
  match net city with
  | .response status temp =>
      if status = 200 then .ok (.json temp)
      else .ok (.error (errorText city status))
  | .exn msg => .error msg

/-- Embeds `fetch_temperature_async`: identical per-request behaviour through
`session.get`; an exception raised by `aiohttp` is not caught and propagates
out of the coroutine. -/
def fetch_temperature_async (net : String → NetOutcome) (city : String) :
    Except String FetchResult :=
  match net city with
  | .response status temp =>
      if status = 200 then .ok (.json temp)
      else .ok (.error (errorText city status))
  | .exn msg => .error msg

/-- Embeds `monitor_without_async`: the list comprehension issues the requests
one at a time in list order; the first uncaught exception aborts the whole
batch. -/
def monitor_without_async (net : String → NetOutcome) (cityList : List String) :
    Except String (List FetchResult) :=
  cityList.mapM (fetch_temperature_sync net)

/-- Embeds `monitor_with_async`: one task per city, created in list order and
run by the event loop in an arbitrary completion order `order`; each result is
stored in its task's slot and `asyncio.gather` (default
`return_exceptions=False`) returns the slots in task-creation order, or
propagates the exception of a failed task. -/
def monitor_with_async (net : String → NetOutcome) (cityList : List String)
    (order : List Nat) : Except String (List FetchResult) :=
  ((runSched (fetch_temperature_async net) cityList order).map
      (fun o => o.getD (Except.error "pending"))).mapM id

/-- A small two-city table used to witness the scheduler theorems on a
concrete out-of-submission-order schedule. -/
def twoCityRows : List Row :=
  [{ timestamp := 0, city := "B", season := "winter", temperature := 1 },
   { timestamp := 1, city := "A", season := "winter", temperature := 2 },
   { timestamp := 2, city := "B", season := "spring", temperature := 3 }]

/-- A one-row table whose only (city, season) group holds the single
observation 7. -/
def oneRowTable : List Row :=
  [{ timestamp := 0, city := "X", season := "winter", temperature := 7 }]

/-- The seasonal row the aggregator produces for the one-row table. -/
def statX : SeasonalStat :=
  { city := "X", season := "winter", mean := 7, var := none }

/-- The scenario series of C8: forty records, constant 20.0 except a spike to
100.0 at index 35. -/
def spikeSeries : List ℚ :=
  (List.range 40).map fun i => if i = 35 then 100 else 20

/-- A network oracle on which every request raises a transport error. -/
def failNet : String → NetOutcome := fun _ => .exn "connection error"

/-- A network oracle answering with HTTP 200 and temperature 5 for every
city. -/
def okNet : String → NetOutcome := fun _ => .response 200 5

/-- A network oracle that succeeds for city "A" and raises a transport error
for every other city. -/
def halfFailNet : String → NetOutcome :=
  fun c => if c = "A" then .response 200 7 else .exn "boom"

/-! ### Helper lemmas about the scheduler -/

theorem schedStep_length {α β : Type} (f : α → β) (tasks : List α)
    (slots : List (Option β)) (i : Nat) :
    (schedStep f tasks slots i).length = slots.length := by
  unfold schedStep
  cases tasks[i]? <;> simp

theorem foldl_schedStep_length {α β : Type} (f : α → β) (tasks : List α)
    (order : List Nat) (slots : List (Option β)) :
    (order.foldl (schedStep f tasks) slots).length = slots.length := by
  induction order generalizing slots with
  | nil => rfl
  | cons i rest ih =>
      rw [List.foldl_cons, ih, schedStep_length]

theorem foldl_schedStep_getElem? {α β : Type} (f : α → β) (tasks : List α)
    (order : List Nat) (slots : List (Option β))
    (hlen : slots.length = tasks.length) (j : Nat) :
    (order.foldl (schedStep f tasks) slots)[j]? =
      if j ∈ order ∧ j < tasks.length then (tasks[j]?).map (fun t => some (f t))
      else slots[j]? := by
  induction order generalizing slots with
  | nil => simp
  | cons i rest ih =>
      rw [List.foldl_cons, ih (schedStep f tasks slots i)
        (by rw [schedStep_length, hlen])]
      by_cases hrest : j ∈ rest ∧ j < tasks.length
      · rw [if_pos hrest, if_pos ⟨List.mem_cons_of_mem i hrest.1, hrest.2⟩]
      · rw [if_neg hrest]
        by_cases hji : j = i
        · subst hji
          by_cases hj : j < tasks.length
          · have ht : tasks[j]? = some (tasks.get ⟨j, hj⟩) :=
              List.getElem?_eq_getElem hj
            rw [if_pos ⟨List.mem_cons_self j rest, hj⟩]
            unfold schedStep
            rw [ht]
            exact List.getElem?_set_self (by omega)
          · rw [if_neg (by exact fun h => hj h.2)]
            unfold schedStep
            rw [List.getElem?_eq_none (by omega : tasks.length ≤ j)]
        · rw [if_neg (by
            rintro ⟨hmem, hj⟩
            rcases List.mem_cons.mp hmem with h | h
            · exact hji h
            · exact hrest ⟨h, hj⟩)]
          unfold schedStep
          cases tasks[i]? with
          | some t => rw [List.getElem?_set_ne (by omega)]
          | none => rfl

theorem runSched_eq_map {α β : Type} (f : α → β) (tasks : List α)
    (order : List Nat) (hcover : ∀ i, i < tasks.length → i ∈ order) :
    runSched f tasks order = tasks.map (fun t => some (f t)) := by
  apply List.ext_getElem?
  intro j
  unfold runSched
  rw [foldl_schedStep_getElem? f tasks order _ (List.length_replicate _ _) j]
  by_cases hj : j < tasks.length
  · rw [if_pos ⟨hcover j hj, hj⟩, List.getElem?_map]
  · rw [if_neg (fun h => hj h.2), List.getElem?_eq_none, List.getElem?_eq_none]
    · simpa using hj
    · simpa using hj

/-! ### Helper lemmas about means, variances and the anomaly test -/

theorem sampleVar_nonneg (xs : List ℚ) (h : 2 ≤ xs.length) : 0 ≤ sampleVar xs := by
  apply div_nonneg
  · apply List.sum_nonneg
    intro x hx
    simp only [List.mem_map] at hx
    obtain ⟨y, _, rfl⟩ := hx
    positivity
  · have h2 : (2 : ℚ) ≤ (xs.length : ℚ) := by exact_mod_cast h
    linarith

theorem two_sqrt_lt_iff (v a : ℝ) (hv : 0 ≤ v) :
    2 * Real.sqrt v < a ↔ 0 < a ∧ 4 * v < a ^ 2 := by
  have hs : 0 ≤ 2 * Real.sqrt v := by positivity
  constructor
  · intro h
    have ha : 0 < a := lt_of_le_of_lt hs h
    refine ⟨ha, ?_⟩
    have hp := pow_lt_pow_left₀ h hs (two_ne_zero)
    calc 4 * v = (2 * Real.sqrt v) ^ 2 := by
          rw [mul_pow, Real.sq_sqrt hv]; norm_num
      _ < a ^ 2 := hp
  · rintro ⟨ha, h⟩
    have h2 : (2 * Real.sqrt v) ^ 2 < a ^ 2 := by
      rw [mul_pow, Real.sq_sqrt hv]; norm_num; linarith
    exact lt_of_pow_lt_pow_left₀ 2 (le_of_lt ha) h2

theorem anomalyFlag_iff_sqrt (t m v : ℚ) (hv : 0 ≤ v) :
    anomalyFlag t (some m) (some v) = true ↔
      ((m : ℝ) + 2 * Real.sqrt (v : ℝ) < (t : ℝ) ∨
       (t : ℝ) < (m : ℝ) - 2 * Real.sqrt (v : ℝ)) := by
  have hv' : (0 : ℝ) ≤ (v : ℝ) := by exact_mod_cast hv
  have h1 : ((m : ℝ) + 2 * Real.sqrt (v : ℝ) < (t : ℝ)) ↔
      2 * Real.sqrt (v : ℝ) < (t : ℝ) - (m : ℝ) := by
    constructor <;> intro h <;> linarith
  have h2 : ((t : ℝ) < (m : ℝ) - 2 * Real.sqrt (v : ℝ)) ↔
      2 * Real.sqrt (v : ℝ) < (m : ℝ) - (t : ℝ) := by
    constructor <;> intro h <;> linarith
  have e1 : m < t ↔ (0 : ℝ) < (t : ℝ) - (m : ℝ) := by
    rw [sub_pos]; exact Iff.symm Rat.cast_lt
  have e2 : 4 * v < (t - m) ^ 2 ↔ (4 : ℝ) * (v : ℝ) < ((t : ℝ) - (m : ℝ)) ^ 2 := by
    constructor <;> intro h <;> exact_mod_cast h
  have e3 : t < m ↔ (0 : ℝ) < (m : ℝ) - (t : ℝ) := by
    rw [sub_pos]; exact Iff.symm Rat.cast_lt
  have e4 : 4 * v < (m - t) ^ 2 ↔ (4 : ℝ) * (v : ℝ) < ((m : ℝ) - (t : ℝ)) ^ 2 := by
    constructor <;> intro h <;> exact_mod_cast h
  rw [h1, h2, two_sqrt_lt_iff _ _ hv', two_sqrt_lt_iff _ _ hv']
  simp only [anomalyFlag, Bool.or_eq_true, Bool.and_eq_true, decide_eq_true_eq]
  rw [e1, e2, e3, e4]

/-! ### Helper lemmas about the rolling window -/

theorem windowAt_length (temps : List ℚ) (i : Nat) (h29 : 29 ≤ i)
    (hlen : i < temps.length) : (windowAt temps i).length = 30 := by
  unfold windowAt
  rw [List.length_drop, List.length_take]
  omega

theorem windowAt_getElem? (temps : List ℚ) (i : Nat) (h29 : 29 ≤ i)
    (_hlen : i < temps.length) (j : Nat) (hj : j < 30) :
    (windowAt temps i)[j]? = temps[i - 29 + j]? := by
  unfold windowAt
  rw [List.getElem?_drop, List.getElem?_take_of_lt (by omega)]

theorem annCols_getD (temps : List ℚ) (i : Nat) (h : i < temps.length) :
    (annCols temps).getD i default =
      { rolling_mean := rolling_mean temps i
        rolling_var := rolling_var temps i
        anomaly := anomalyFlag (temps.getD i 0) (rolling_mean temps i)
          (rolling_var temps i) } := by
  unfold annCols
  rw [List.getD_eq_getElem?_getD, List.getElem?_map, List.getElem?_range h]
  rfl

/-! ### Claim theorems -/

/-- C1: For every multi-city input dataset, running the analysis in sequential
mode and in concurrent mode produces identical AnomalyAnnotatedSeries content:
the two frames are equal, and in particular for each city the annotated
records (rows zipped with their rolling stats and anomaly flags) are equal
between `analyze_without_parallelism` and `analyze_with_parallelism`,
independent of the order `order` in which the scheduler processes the
partitions (any order that runs every partition). -/
theorem parallel_analysis_eq_sequential (rows : List Row) (order : List Nat)
    (hcover : ∀ i, i < (groupby_city rows).length → i ∈ order) :
    analyze_with_parallelism rows order = analyze_without_parallelism rows ∧
    ∀ c : String,
      ((analyze_with_parallelism rows order).rows.zip
          ((analyze_with_parallelism rows order).ann.getD [])).filter
        (fun ra => decide (ra.1.city = c)) =
      ((analyze_without_parallelism rows).rows.zip
          ((analyze_without_parallelism rows).ann.getD [])).filter
        (fun ra => decide (ra.1.city = c)) := by
  have h := runSched_eq_map process_city_data (groupby_city rows) order hcover
  have hmain : analyze_with_parallelism rows order =
      analyze_without_parallelism rows := by
    unfold analyze_with_parallelism analyze_without_parallelism
    rw [h, List.map_map]
    rfl
  exact ⟨hmain, fun c => by rw [hmain]⟩

/-- Witness for C1: on the concrete two-city table, running the two
partitions in the reversed order `[1, 0]` yields the sequential result. -/
theorem parallel_analysis_eq_sequential_witness :
    (∀ i, i < (groupby_city twoCityRows).length → i ∈ [1, 0]) ∧
    analyze_with_parallelism twoCityRows [1, 0] =
      analyze_without_parallelism twoCityRows := by
  have hcover : ∀ i, i < (groupby_city twoCityRows).length → i ∈ [1, 0] := by
    intro i hi
    have h2 : (groupby_city twoCityRows).length = 2 := by rfl
    rw [h2] at hi
    interval_cases i <;> decide
  exact ⟨hcover, (parallel_analysis_eq_sequential twoCityRows [1, 0] hcover).1⟩

/-- C2: For every single-city series and every 0-based index `29 ≤ i` within
the series, the detector's window is exactly the 30 records `[i-29, i]`, the
rolling mean is their arithmetic mean (sum divided by 30), the rolling
variance is their sample variance (divisor `30 - 1 = 29`), so the rolling std
is the sample standard deviation `√var`, and the record is flagged anomalous
exactly when its temperature is strictly above `mean + 2·std` or strictly
below `mean - 2·std`. -/
theorem rolling_window_stats_spec (temps : List ℚ) (i : Nat) (h29 : 29 ≤ i)
    (hlen : i < temps.length) :
    (windowAt temps i).length = 30 ∧
    (∀ j, j < 30 → (windowAt temps i).getD j 0 = temps.getD (i - 29 + j) 0) ∧
    rolling_mean temps i = some ((windowAt temps i).sum / 30) ∧
    rolling_var temps i =
      some (((windowAt temps i).map
        (fun x => (x - (windowAt temps i).sum / 30) ^ 2)).sum / 29) ∧
    (((annCols temps).getD i default).anomaly = true ↔
      ((listMean (windowAt temps i) : ℝ) +
          2 * Real.sqrt (sampleVar (windowAt temps i) : ℝ) < (temps.getD i 0 : ℝ) ∨
       (temps.getD i 0 : ℝ) <
          (listMean (windowAt temps i) : ℝ) -
            2 * Real.sqrt (sampleVar (windowAt temps i) : ℝ))) := by
  have hlen30 := windowAt_length temps i h29 hlen
  have hmean : listMean (windowAt temps i) = (windowAt temps i).sum / 30 := by
    unfold listMean
    rw [hlen30]
    norm_num
  have hvar : sampleVar (windowAt temps i) =
      ((windowAt temps i).map
        (fun x => (x - (windowAt temps i).sum / 30) ^ 2)).sum / 29 := by
    unfold sampleVar
    rw [hmean, hlen30]
    norm_num
  refine ⟨hlen30, ?_, ?_, ?_, ?_⟩
  · intro j hj
    rw [List.getD_eq_getElem?_getD, List.getD_eq_getElem?_getD,
      windowAt_getElem? temps i h29 hlen j hj]
  · unfold rolling_mean
    rw [if_pos h29, hmean]
  · unfold rolling_var
    rw [if_pos h29, hvar]
  · rw [annCols_getD temps i hlen]
    show anomalyFlag (temps.getD i 0) (rolling_mean temps i)
      (rolling_var temps i) = true ↔ _
    unfold rolling_mean rolling_var
    rw [if_pos h29, if_pos h29]
    exact anomalyFlag_iff_sqrt _ _ _
      (sampleVar_nonneg _ (by rw [hlen30]; norm_num))

/-- Witness for C2 at the constant series of thirty records, index 29. -/
theorem rolling_window_stats_spec_witness :
    29 ≤ 29 ∧ 29 < (List.replicate 30 (20 : ℚ)).length ∧
    (windowAt (List.replicate 30 (20 : ℚ)) 29).length = 30 ∧
    rolling_mean (List.replicate 30 (20 : ℚ)) 29 =
      some ((windowAt (List.replicate 30 (20 : ℚ)) 29).sum / 30) := by
  refine ⟨le_refl 29, by decide, ?_, ?_⟩
  · exact (rolling_window_stats_spec _ 29 (le_refl 29) (by decide)).1
  · exact (rolling_window_stats_spec _ 29 (le_refl 29) (by decide)).2.2.1

/-- C3: For every series and every 0-based index `i < 29`, the detector
leaves the rolling mean and rolling std undefined (NaN) and flags the record
as not anomalous; in particular in a series of fewer than 30 records every
record has undefined rolling stats and a false anomaly flag. -/
theorem insufficient_history_undefined (temps : List ℚ) (i : Nat)
    (h : i < 29) :
    rolling_mean temps i = none ∧ rolling_var temps i = none ∧
    ((annCols temps).getD i default).anomaly = false ∧
    (temps.length < 30 → ∀ a ∈ annCols temps,
      a.rolling_mean = none ∧ a.rolling_var = none ∧ a.anomaly = false) := by
  have hm : rolling_mean temps i = none := by
    unfold rolling_mean
    rw [if_neg (by omega)]
  have hv : rolling_var temps i = none := by
    unfold rolling_var
    rw [if_neg (by omega)]
  refine ⟨hm, hv, ?_, ?_⟩
  · by_cases hi : i < temps.length
    · rw [annCols_getD temps i hi, hm]
      rfl
    · rw [List.getD_eq_default]
      · rfl
      · unfold annCols
        simp only [List.length_map, List.length_range]
        omega
  · intro hshort a ha
    unfold annCols at ha
    simp only [List.mem_map, List.mem_range] at ha
    obtain ⟨i', hi', rfl⟩ := ha
    have h29' : ¬ 29 ≤ i' := by omega
    refine ⟨?_, ?_, ?_⟩
    · unfold rolling_mean
      rw [if_neg h29']
    · unfold rolling_var
      rw [if_neg h29']
    · show anomalyFlag _ (rolling_mean temps i') _ = false
      unfold rolling_mean
      rw [if_neg h29']
      rfl

/-- Witness for C3 at a three-record series, index 1. -/
theorem insufficient_history_undefined_witness :
    (1 : Nat) < 29 ∧ rolling_mean [(1 : ℚ), 2, 3] 1 = none ∧
      rolling_var [(1 : ℚ), 2, 3] 1 = none ∧
      ((annCols [(1 : ℚ), 2, 3]).getD 1 default).anomaly = false := by
  have h := insufficient_history_undefined [(1 : ℚ), 2, 3] 1 (by decide)
  exact ⟨by decide, h.1, h.2.1, h.2.2.1⟩

/-- C6: For every input table, the seasonal aggregator yields exactly one row
per distinct `(city, season)` pair present in the input — the key list of the
output has no duplicates and contains a pair exactly when some input record
carries it — and each row's mean is the arithmetic mean of that group's
temperatures. -/
theorem seasonal_statistics_spec (rows : List Row) :
    ((seasonal_statistics rows).map fun s => (s.city, s.season)).Nodup ∧
    (∀ p : String × String,
      (p ∈ (seasonal_statistics rows).map fun s => (s.city, s.season)) ↔
      p ∈ rows.map fun r => (r.city, r.season)) ∧
    ∀ s ∈ seasonal_statistics rows,
      s.mean = listMean (groupTemps rows (s.city, s.season)) := by
  have hkeys : ((seasonal_statistics rows).map fun s => (s.city, s.season)) =
      seasonKeys rows := by
    unfold seasonal_statistics
    rw [List.map_map]
    conv_rhs => rw [← List.map_id (seasonKeys rows)]
    apply List.map_congr_left
    intro p _
    rfl
  refine ⟨?_, ?_, ?_⟩
  · rw [hkeys]
    exact List.nodup_dedup _
  · intro p
    rw [hkeys]
    exact List.mem_dedup
  · intro s hs
    unfold seasonal_statistics at hs
    simp only [List.mem_map] at hs
    obtain ⟨p, _, rfl⟩ := hs
    rfl

/-- Witness for C6 on the concrete two-city table. -/
theorem seasonal_statistics_spec_witness :
    ((seasonal_statistics twoCityRows).map fun s => (s.city, s.season)).Nodup ∧
    ((("B", "winter") ∈
        (seasonal_statistics twoCityRows).map fun s => (s.city, s.season)) ↔
      ("B", "winter") ∈ twoCityRows.map fun r => (r.city, r.season)) :=
  ⟨(seasonal_statistics_spec twoCityRows).1,
   (seasonal_statistics_spec twoCityRows).2.1 ("B", "winter")⟩

/-- C7: A `(city, season)` group with exactly one observation gets a row
whose mean is defined and equal to that observation's temperature, and whose
std is undefined (`none`), not zero. -/
theorem singleton_group_mean_defined_std_undefined (rows : List Row)
    (s : SeasonalStat) (hs : s ∈ seasonal_statistics rows) (t : ℚ)
    (hone : groupTemps rows (s.city, s.season) = [t]) :
    s.mean = t ∧ s.var = none := by
  unfold seasonal_statistics at hs
  simp only [List.mem_map] at hs
  obtain ⟨p, _, rfl⟩ := hs
  have hp : groupTemps rows p = [t] := hone
  refine ⟨?_, ?_⟩
  · show listMean (groupTemps rows p) = t
    rw [hp]
    unfold listMean
    simp
  · show (if 2 ≤ (groupTemps rows p).length then
        some (sampleVar (groupTemps rows p)) else none) = none
    rw [hp]
    norm_num

/-- Witness for C7: the single ("X", "winter") group of the one-row table has
exactly one observation; its row has mean 7 and an undefined std. -/
theorem singleton_group_mean_defined_std_undefined_witness :
    statX ∈ seasonal_statistics oneRowTable ∧
    groupTemps oneRowTable (statX.city, statX.season) = [7] ∧
    (statX.mean = 7 ∧ statX.var = none) := by
  have hstat : seasonal_statistics oneRowTable = [statX] := by
    unfold seasonal_statistics seasonKeys oneRowTable statX groupTemps listMean
    norm_num [List.dedup_cons_of_not_mem]
  have hs : statX ∈ seasonal_statistics oneRowTable := by
    rw [hstat]
    exact List.mem_singleton_self _
  have hone : groupTemps oneRowTable (statX.city, statX.season) = [7] := by
    decide
  exact ⟨hs, hone,
    singleton_group_mean_defined_std_undefined oneRowTable statX hs 7 hone⟩

/-- Unfolds the boolean anomaly test into the two strict comparisons of the
source, in their squared rational form. -/
theorem anomalyFlag_eq_true_iff (t m v : ℚ) :
    anomalyFlag t (some m) (some v) = true ↔
      ((m < t ∧ 4 * v < (t - m) ^ 2) ∨ (t < m ∧ 4 * v < (m - t) ^ 2)) := by
  simp only [anomalyFlag, Bool.or_eq_true, Bool.and_eq_true, decide_eq_true_eq]

/-- The complementary form of `anomalyFlag_eq_true_iff`. -/
theorem anomalyFlag_eq_false_iff (t m v : ℚ) :
    anomalyFlag t (some m) (some v) = false ↔
      ¬((m < t ∧ 4 * v < (t - m) ^ 2) ∨ (t < m ∧ 4 * v < (m - t) ^ 2)) := by
  rw [← anomalyFlag_eq_true_iff]
  cases h : anomalyFlag t (some m) (some v) <;> simp

/-- Mean of a window of thirty constant readings of 20. -/
theorem constWindow_mean : listMean (List.replicate 30 (20 : ℚ)) = 20 := by
  unfold listMean
  rw [List.sum_replicate, List.length_replicate, nsmul_eq_mul]
  norm_num

/-- Sample variance of a window of thirty constant readings of 20. -/
theorem constWindow_var : sampleVar (List.replicate 30 (20 : ℚ)) = 0 := by
  unfold sampleVar
  rw [constWindow_mean, List.map_replicate, List.length_replicate,
    List.sum_replicate]
  norm_num

/-- Mean of a thirty-reading window of 20s with one 100 anywhere in it. -/
theorem spikeWindow_mean (a b : Nat) (hab : a + b = 29) :
    listMean (List.replicate a (20 : ℚ) ++ 100 :: List.replicate b 20) =
      68 / 3 := by
  unfold listMean
  rw [List.sum_append, List.sum_cons, List.sum_replicate, List.sum_replicate,
    List.length_append, List.length_cons, List.length_replicate,
    List.length_replicate, nsmul_eq_mul, nsmul_eq_mul]
  have h : (a : ℚ) + b = 29 := by exact_mod_cast hab
  push_cast
  rw [div_eq_iff (by linarith)]
  linear_combination (-8 / 3 : ℚ) * h

/-- Sample variance of a thirty-reading window of 20s with one 100 anywhere
in it. -/
theorem spikeWindow_var (a b : Nat) (hab : a + b = 29) :
    sampleVar (List.replicate a (20 : ℚ) ++ 100 :: List.replicate b 20) =
      640 / 3 := by
  unfold sampleVar
  rw [spikeWindow_mean a b hab, List.map_append, List.map_cons,
    List.map_replicate, List.map_replicate, List.sum_append, List.sum_cons,
    List.sum_replicate, List.sum_replicate, List.length_append,
    List.length_cons, List.length_replicate, List.length_replicate,
    nsmul_eq_mul, nsmul_eq_mul]
  have h : (a : ℚ) + b = 29 := by exact_mod_cast hab
  have e1 : ((20 : ℚ) - 68 / 3) ^ 2 = 64 / 9 := by norm_num
  have e2 : ((100 : ℚ) - 68 / 3) ^ 2 = 53824 / 9 := by norm_num
  rw [e1, e2]
  push_cast
  rw [div_eq_iff (by linarith)]
  linear_combination (-1856 / 9 : ℚ) * h

/-- The anomaly test on a constant window: 20 is inside the collapsed
bounds. -/
theorem flag_const : anomalyFlag 20 (some 20) (some 0) = false := by
  rw [anomalyFlag_eq_false_iff]
  norm_num

/-- The anomaly test at the spike: 100 is above the upper bound of its
window. -/
theorem flag_at_spike :
    anomalyFlag 100 (some (68 / 3)) (some (640 / 3)) = true := by
  rw [anomalyFlag_eq_true_iff]
  norm_num

/-- The anomaly test just after the spike: 20 stays inside the widened
bounds. -/
theorem flag_after_spike :
    anomalyFlag 20 (some (68 / 3)) (some (640 / 3)) = false := by
  rw [anomalyFlag_eq_false_iff]
  norm_num

/-- C8: On the spike series, the detector flags index 35 as an anomaly and
flags no other index. -/
theorem spike_flagged_only_at_35 :
    (annCols spikeSeries).map (·.anomaly) =
      (List.range 40).map fun i => decide (i = 35) := by
  have hsplen : spikeSeries.length = 40 := by decide
  unfold annCols
  rw [hsplen, List.map_map]
  apply List.map_congr_left
  intro i hi
  simp only [List.mem_range] at hi
  show anomalyFlag (spikeSeries.getD i 0) (rolling_mean spikeSeries i)
    (rolling_var spikeSeries i) = decide (i = 35)
  by_cases h28 : i ≤ 28
  · unfold rolling_mean
    rw [if_neg (by omega), decide_eq_false (by omega : ¬ i = 35)]
    rfl
  · have h1 : 29 ≤ i := by omega
    have h2 : i ≤ 39 := by omega
    unfold rolling_mean rolling_var
    rw [if_pos h1, if_pos h1]
    interval_cases i
    · rw [show windowAt spikeSeries 29 = List.replicate 30 (20 : ℚ) from by decide,
        show spikeSeries.getD 29 0 = 20 from by decide,
        constWindow_mean, constWindow_var,
        show decide (29 = 35) = false from by decide]
      exact flag_const
    · rw [show windowAt spikeSeries 30 = List.replicate 30 (20 : ℚ) from by decide,
        show spikeSeries.getD 30 0 = 20 from by decide,
        constWindow_mean, constWindow_var,
        show decide (30 = 35) = false from by decide]
      exact flag_const
    · rw [show windowAt spikeSeries 31 = List.replicate 30 (20 : ℚ) from by decide,
        show spikeSeries.getD 31 0 = 20 from by decide,
        constWindow_mean, constWindow_var,
        show decide (31 = 35) = false from by decide]
      exact flag_const
    · rw [show windowAt spikeSeries 32 = List.replicate 30 (20 : ℚ) from by decide,
        show spikeSeries.getD 32 0 = 20 from by decide,
        constWindow_mean, constWindow_var,
        show decide (32 = 35) = false from by decide]
      exact flag_const
    · rw [show windowAt spikeSeries 33 = List.replicate 30 (20 : ℚ) from by decide,
        show spikeSeries.getD 33 0 = 20 from by decide,
        constWindow_mean, constWindow_var,
        show decide (33 = 35) = false from by decide]
      exact flag_const
    · rw [show windowAt spikeSeries 34 = List.replicate 30 (20 : ℚ) from by decide,
        show spikeSeries.getD 34 0 = 20 from by decide,
        constWindow_mean, constWindow_var,
        show decide (34 = 35) = false from by decide]
      exact flag_const
    · rw [show windowAt spikeSeries 35 =
          List.replicate 29 (20 : ℚ) ++ 100 :: List.replicate 0 20 from by decide,
        show spikeSeries.getD 35 0 = 100 from by decide,
        spikeWindow_mean 29 0 (by decide), spikeWindow_var 29 0 (by decide),
        show decide (35 = 35) = true from by decide]
      exact flag_at_spike
    · rw [show windowAt spikeSeries 36 =
          List.replicate 28 (20 : ℚ) ++ 100 :: List.replicate 1 20 from by decide,
        show spikeSeries.getD 36 0 = 20 from by decide,
        spikeWindow_mean 28 1 (by decide), spikeWindow_var 28 1 (by decide),
        show decide (36 = 35) = false from by decide]
      exact flag_after_spike
    · rw [show windowAt spikeSeries 37 =
          List.replicate 27 (20 : ℚ) ++ 100 :: List.replicate 2 20 from by decide,
        show spikeSeries.getD 37 0 = 20 from by decide,
        spikeWindow_mean 27 2 (by decide), spikeWindow_var 27 2 (by decide),
        show decide (37 = 35) = false from by decide]
      exact flag_after_spike
    · rw [show windowAt spikeSeries 38 =
          List.replicate 26 (20 : ℚ) ++ 100 :: List.replicate 3 20 from by decide,
        show spikeSeries.getD 38 0 = 20 from by decide,
        spikeWindow_mean 26 3 (by decide), spikeWindow_var 26 3 (by decide),
        show decide (38 = 35) = false from by decide]
      exact flag_after_spike
    · rw [show windowAt spikeSeries 39 =
          List.replicate 25 (20 : ℚ) ++ 100 :: List.replicate 4 20 from by decide,
        show spikeSeries.getD 39 0 = 20 from by decide,
        spikeWindow_mean 25 4 (by decide), spikeWindow_var 25 4 (by decide),
        show decide (39 = 35) = false from by decide]
      exact flag_after_spike

/-- C9 counterexample: the detector is not side-effect free as claimed — it
assigns the annotation columns on the very frame it receives, so the caller's
frame is changed by the call; already an empty frame comes back different
(the annotation columns now exist on it). -/
theorem process_city_data_mutates_frame :
    process_city_data { rows := [], ann := none } ≠
      ({ rows := [], ann := none } : DataFrame) := by
  decide

/-- C9 amended: on every input frame the detector terminates without error
and returns the frame with the original records untouched (timestamps,
cities, seasons and temperature values are preserved, in order) and exactly
one annotation per record; an empty input yields an empty annotated output.
However the annotation columns are written into the caller's frame (the
frame's state after the call carries them), so the call does mutate its
argument. -/
theorem process_city_data_frame_spec (df : DataFrame) :
    (process_city_data df).rows = df.rows ∧
    (process_city_data df).ann = some (annCols (df.rows.map (·.temperature))) ∧
    (annCols (df.rows.map (·.temperature))).length = df.rows.length ∧
    (df.rows = [] →
      process_city_data df = { rows := [], ann := some [] }) := by
  refine ⟨rfl, rfl, ?_, ?_⟩
  · unfold annCols
    simp
  · intro h
    unfold process_city_data
    rw [h]
    rfl

/-- Witness for C9's amended theorem at the empty frame. -/
theorem process_city_data_frame_spec_witness :
    (process_city_data { rows := [], ann := none }).rows = [] ∧
    process_city_data { rows := [], ann := none } =
      ({ rows := [], ann := some [] } : DataFrame) :=
  ⟨(process_city_data_frame_spec { rows := [], ann := none }).1,
   (process_city_data_frame_spec { rows := [], ann := none }).2.2.2 rfl⟩

/-! ### Helper lemmas about the fetch monitors -/

theorem mapM_except_ok_spec {ε α β : Type} (g : α → Except ε β) (l : List α)
    (rs : List β) (h : l.mapM g = .ok rs) :
    rs.length = l.length ∧
    ∀ i, i < l.length →
      ∃ a b, l[i]? = some a ∧ rs[i]? = some b ∧ g a = .ok b := by
  induction l generalizing rs with
  | nil =>
      rw [List.mapM_nil] at h
      obtain rfl : ([] : List β) = rs := by
        simpa [pure, Except.pure] using h
      simp
  | cons a l ih =>
      rw [List.mapM_cons] at h
      cases hga : g a with
      | error e =>
          rw [hga] at h
          simp [Bind.bind, Except.bind] at h
      | ok b =>
          rw [hga] at h
          cases hbs : l.mapM g with
          | error e =>
              rw [hbs] at h
              simp [Bind.bind, Except.bind] at h
          | ok bs =>
              rw [hbs] at h
              obtain rfl : b :: bs = rs := by
                simpa [Bind.bind, Except.bind, pure, Except.pure] using h
              obtain ⟨hlen, hidx⟩ := ih bs hbs
              refine ⟨by simp [hlen], ?_⟩
              intro i hi
              cases i with
              | zero => exact ⟨a, b, by simp, by simp, hga⟩
              | succ i =>
                  obtain ⟨a', b', h1, h2, h3⟩ := hidx i (by simpa using hi)
                  exact ⟨a', b', by simpa using h1, by simpa using h2, h3⟩

theorem mapM_except_total {ε α β : Type} (g : α → Except ε β) (l : List α)
    (h : ∀ a ∈ l, ∃ b, g a = .ok b) : ∃ rs, l.mapM g = .ok rs := by
  induction l with
  | nil => exact ⟨[], by rw [List.mapM_nil]; rfl⟩
  | cons a l ih =>
      obtain ⟨b, hb⟩ := h a (List.mem_cons_self a l)
      obtain ⟨rs, hrs⟩ := ih (fun x hx => h x (List.mem_cons_of_mem a hx))
      refine ⟨b :: rs, ?_⟩
      rw [List.mapM_cons, hb]
      show (l.mapM g).bind _ = _
      rw [hrs]
      rfl

theorem mapM_id_map {ε α β : Type} (g : α → Except ε β) (l : List α) :
    (l.map g).mapM id = l.mapM g := by
  induction l with
  | nil => rfl
  | cons a l ih =>
      rw [List.map_cons, List.mapM_cons, List.mapM_cons, ih]
      rfl

/-- With any completion order that runs every task, the concurrent monitor is
the sequential composition of the per-city async fetches in task-creation
order. -/
theorem monitor_with_async_eq (net : String → NetOutcome)
    (cityList : List String) (order : List Nat)
    (hcover : ∀ i, i < cityList.length → i ∈ order) :
    monitor_with_async net cityList order =
      cityList.mapM (fetch_temperature_async net) := by
  unfold monitor_with_async
  rw [runSched_eq_map _ _ _ hcover, List.map_map]
  have hcomp : ((fun o => o.getD (Except.error "pending")) ∘
      fun t => some (fetch_temperature_async net t)) =
      fetch_temperature_async net := rfl
  rw [hcomp, mapM_id_map]

/-! ### Claim theorems about the fetch harness -/

/-- C4 counterexample: a transport error is not converted into a FetchResult
carrying an error description — the exception propagates out of the fetcher
and aborts the batch: requesting the single city "A" over a network whose
requests raise yields no result list at all. -/
theorem transport_error_aborts_batch :
    monitor_without_async failNet ["A"] = .error "connection error" := rfl

/-- C4 amended: per request, in both fetch modes, a 200 response yields a
FetchResult carrying the temperature of the JSON body and a response with any
other status yields a FetchResult carrying the error description (with no
temperature); these never abort the batch.  A transport error, however, is
not caught: it propagates as an exception from the fetcher and a single such
failure aborts the whole batch. -/
theorem fetch_failure_handling (net : String → NetOutcome) (city : String) :
    (∀ t, net city = .response 200 t →
      fetch_temperature_sync net city = .ok (.json t) ∧
      fetch_temperature_async net city = .ok (.json t)) ∧
    (∀ s t, s ≠ 200 → net city = .response s t →
      fetch_temperature_sync net city = .ok (.error (errorText city s)) ∧
      fetch_temperature_async net city = .ok (.error (errorText city s))) ∧
    (∀ m, net city = .exn m →
      fetch_temperature_sync net city = .error m ∧
      fetch_temperature_async net city = .error m ∧
      monitor_without_async net [city] = .error m) := by
  refine ⟨?_, ?_, ?_⟩
  · intro t h
    constructor <;> simp [fetch_temperature_sync, fetch_temperature_async, h]
  · intro s t hs h
    constructor <;>
      simp [fetch_temperature_sync, fetch_temperature_async, h, hs]
  · intro m h
    have hsync : fetch_temperature_sync net city = .error m := by
      simp [fetch_temperature_sync, h]
    have hasync : fetch_temperature_async net city = .error m := by
      simp [fetch_temperature_async, h]
    refine ⟨hsync, hasync, ?_⟩
    unfold monitor_without_async
    rw [List.mapM_cons, hsync]
    rfl

/-- Witness for C4's amended theorem: a successful request for city "A". -/
theorem fetch_failure_handling_witness :
    okNet "A" = .response 200 5 ∧
    fetch_temperature_sync okNet "A" = .ok (.json 5) :=
  ⟨rfl, ((fetch_failure_handling okNet "A").1 5 rfl).1⟩

/-- C5 counterexample: requesting the two cities "A" and "B" where "B"'s
request raises a transport error, the concurrent monitor does not return one
FetchResult per requested city — it returns no result sequence at all, the
exception having aborted the gather. -/
theorem gather_aborts_on_transport_error :
    monitor_with_async halfFailNet ["A", "B"] [0, 1] = .error "boom" := rfl

/-- C5 amended: provided no requested city's fetch raises a transport error —
every per-request failure is a non-success HTTP status — the
concurrent-nonblocking monitor returns exactly one FetchResult per requested
city, whatever the order in which the event loop completes the requests. -/
theorem one_result_per_city (net : String → NetOutcome)
    (cityList : List String) (order : List Nat)
    (hcover : ∀ i, i < cityList.length → i ∈ order)
    (hok : ∀ c ∈ cityList, ∀ m, net c ≠ .exn m) :
    ∃ rs, monitor_with_async net cityList order = .ok rs ∧
      rs.length = cityList.length := by
  rw [monitor_with_async_eq net cityList order hcover]
  have htot : ∀ c ∈ cityList, ∃ r, fetch_temperature_async net c = .ok r := by
    intro c hc
    cases hnc : net c with
    | response s t =>
        by_cases hs : s = 200
        · exact ⟨.json t, by simp [fetch_temperature_async, hnc, hs]⟩
        · exact ⟨.error (errorText c s),
            by simp [fetch_temperature_async, hnc, hs]⟩
    | exn m => exact absurd hnc (hok c hc m)
  obtain ⟨rs, hrs⟩ := mapM_except_total _ _ htot
  exact ⟨rs, hrs, (mapM_except_ok_spec _ _ _ hrs).1⟩

/-- Witness for C5's amended theorem: two cities fetched on the reversed
completion order. -/
theorem one_result_per_city_witness :
    (∀ i, i < (["X", "Y"] : List String).length → i ∈ [1, 0]) ∧
    (∀ c ∈ (["X", "Y"] : List String), ∀ m, okNet c ≠ .exn m) ∧
    ∃ rs, monitor_with_async okNet ["X", "Y"] [1, 0] = .ok rs ∧
      rs.length = (["X", "Y"] : List String).length := by
  have hcover : ∀ i, i < (["X", "Y"] : List String).length → i ∈ [1, 0] := by
    intro i hi
    simp only [List.length_cons, List.length_nil] at hi
    interval_cases i <;> decide
  have hok : ∀ c ∈ (["X", "Y"] : List String), ∀ m, okNet c ≠ .exn m :=
    fun c _ m h => NetOutcome.noConfusion h
  exact ⟨hcover, hok, one_result_per_city okNet ["X", "Y"] [1, 0] hcover hok⟩

/-- C10: In both fetch modes the returned sequence follows the submission
order of the requested cities: whenever the monitors return a result list,
the two lists agree, they hold one entry per city, and the i-th FetchResult
is the fetch result of the i-th requested city — for the concurrent monitor
under every completion order that runs all the tasks. -/
theorem results_follow_submission_order (net : String → NetOutcome)
    (cityList : List String) (order : List Nat) (rs rs2 : List FetchResult)
    (hseq : monitor_without_async net cityList = .ok rs)
    (hcover : ∀ i, i < cityList.length → i ∈ order)
    (hpar : monitor_with_async net cityList order = .ok rs2) :
    rs.length = cityList.length ∧ rs2 = rs ∧
    ∀ i, i < cityList.length → ∃ c r, cityList[i]? = some c ∧
      rs[i]? = some r ∧ fetch_temperature_sync net c = .ok r := by
  have hpar' : monitor_without_async net cityList = .ok rs2 := by
    rw [monitor_with_async_eq net cityList order hcover] at hpar
    exact hpar
  have heq : rs2 = rs := by
    have h12 := hseq.symm.trans hpar'
    exact (Except.ok.inj h12).symm
  obtain ⟨hlen, hidx⟩ := mapM_except_ok_spec (fetch_temperature_sync net)
    cityList rs hseq
  exact ⟨hlen, heq, hidx⟩

/-- Witness for C10: two cities, all requests succeeding, with the
concurrent tasks completing in reversed order. -/
theorem results_follow_submission_order_witness :
    monitor_without_async okNet ["X", "Y"] = .ok [.json 5, .json 5] ∧
    (∀ i, i < (["X", "Y"] : List String).length → i ∈ [1, 0]) ∧
    monitor_with_async okNet ["X", "Y"] [1, 0] = .ok [.json 5, .json 5] ∧
    ([FetchResult.json 5, .json 5] : List FetchResult).length =
      (["X", "Y"] : List String).length := by
  have h1 : monitor_without_async okNet ["X", "Y"] =
      .ok [.json 5, .json 5] := rfl
  have hcover : ∀ i, i < (["X", "Y"] : List String).length → i ∈ [1, 0] := by
    intro i hi
    simp only [List.length_cons, List.length_nil] at hi
    interval_cases i <;> decide
  have h2 : monitor_with_async okNet ["X", "Y"] [1, 0] =
      .ok [.json 5, .json 5] := rfl
  exact ⟨h1, hcover, h2,
    (results_follow_submission_order okNet ["X", "Y"] [1, 0] _ _
      h1 hcover h2).1⟩

end WeatherApp
